import Mathlib

/-!
Shallow embedding of `src/main.py` (FastAPI POC: DB and CSV aggregation).

The program exposes three GET endpoints over a relational store of clients
and products plus a CSV flat file of sales:
  - `read_clients`  : returns all rows of the `clients` table;
  - `read_products` : returns all rows of the `products` table;
  - `read_sales`    : loads the CSV, and for each row looks up the client and
    product by id, emitting a `SaleOutput` with resolved names or "N/A".

Modelling decisions, each tied to a source construct:
  - A CSV row (a pandas record dict) is an association list `Row` from field
    names to `Value`s; `pyGet` is Python `dict.get(k)` returning `Option`
    (`Option.none` is Python `None`), `pyGetD` is `dict.get(k, default)`.
  - `Value` covers the scalar values pandas produces: integers, floating
    point numbers (modelled as rationals, exact for the values at play —
    no arithmetic is performed on them), and strings.
  - The relational store is a `Store` of two lists; SQLAlchemy queries are
    functions `Store → result × Store` returning the store unchanged, since
    `.query(...).all()` and `.filter(...).first()` are pure reads.
  - Pydantic validation of `SaleOutput(...)` is `mkSaleOutput`: each field
    value is coerced to the declared type (`coerceInt`, `coerceFloat`) and
    construction fails (`Option.none`) when any coercion fails; a failed
    construction raises a `ValidationError` which aborts the request, so
    `read_sales` as a whole returns `Option.none` in that case.
  - The filesystem outcome of `pd.read_csv` is `FileOutcome`: the file is
    missing, fails to parse, or yields an ordered list of rows.
  - `read_sales` additionally returns the post-request store and the list of
    reference-data queries it issued, so that frame and short-circuit
    properties are statable.
-/

/-- A scalar field value as produced by the flat-file parser (pandas):
an integer, a floating point number (modelled exactly as a rational; the
program performs no arithmetic on it), or a string. -/
inductive Value where
  | int (n : Int)
  | num (q : Rat)
  | str (s : String)
deriving Repr, DecidableEq

/-- A raw CSV row: a record mapping field names to values
(`df.to_dict(orient='records')` produces one dict per data row). -/
abbrev Row := List (String × Value)

/-- Python `row.get(k)`: `Option.none` models Python `None` for an absent
key. -/
def pyGet (row : Row) (k : String) : Option Value :=
  (row.find? (fun p => p.1 == k)).map Prod.snd

/-- Python `row.get(k, d)`: the value at `k`, or the default `d` when the
key is absent. -/
def pyGetD (row : Row) (k : String) (d : Value) : Value :=
  (pyGet row k).getD d

/-- Row of the `clients` table (`ClientEntity` in `src/main.py`). -/
structure ClientEntity where
  id : Int
  name : String
deriving Repr, DecidableEq

/-- Row of the `products` table (`ProductEntity` in `src/main.py`). -/
structure ProductEntity where
  id : Int
  name : String
  price : Rat
deriving Repr, DecidableEq

/-- The relational store backing the two SQLAlchemy tables. The primary-key
uniqueness of `id` is enforced by the store, not by the program; theorems
that need it take it as a `Nodup` hypothesis. -/
structure Store where
  clients : List ClientEntity
  products : List ProductEntity
deriving Repr, DecidableEq

/-- The enriched sale record (`SaleOutput` pydantic model). -/
structure SaleOutput where
  id : Int
  client_id : Int
  product_id : Int
  sale_amount : Rat
  client_name : String
  product_name : String
deriving Repr, DecidableEq

/-- Pydantic coercion of a field value to `int`. `Option.none` on the left
is Python `None` (absent key), which pydantic rejects for an `int` field;
integers pass through, integral floats are accepted, non-integral floats
are rejected by the numeric validation, and strings are parsed as decimal
integers (`int("12")` succeeds, `int("abc")` raises). -/
def coerceInt : Option Value → Option Int
  | Option.none => Option.none
  | some (Value.int n) => some n
  | some (Value.num q) => if q.den = 1 then some q.num else Option.none
  | some (Value.str s) => s.toInt?

/-- Parse a plain decimal literal (optional sign, digits, optional fraction
part) as Python `float(s)` would; scientific notation is not needed by any
value this development evaluates. -/
def parseDecimal (s : String) : Option Rat :=
  let core : String → Option Rat := fun t =>
    match t.splitOn "." with
    | [a] => (a.toNat?).map (fun n => (n : Rat))
    | [a, b] =>
      match a.toNat?, b.toNat? with
      | some n, some m => some ((n : Rat) + (m : Rat) / ((10 : Rat) ^ b.length))
      | _, _ => Option.none
    | _ => Option.none
  if s.startsWith "-" then (core (s.drop 1)).map (fun q => -q)
  else core s

/-- Pydantic coercion of a field value to `float`. Python `None` (absent
key) is rejected; numbers pass through; strings are parsed as decimal
literals. -/
def coerceFloat : Option Value → Option Rat
  | Option.none => Option.none
  | some (Value.int n) => some (n : Rat)
  | some (Value.num q) => some q
  | some (Value.str s) => parseDecimal s

/-- SQL equality of an integer `id` column against the raw Python value
taken from the row, as in `.filter(ClientEntity.id == row.get(...))`:
comparing with `None` (`id IS NULL`) matches no row of a non-null primary
key, an integer compares directly, a float compares numerically, and a
string comparison value matches no row (in the real store it would fail the
cast; either way no entity is resolved). -/
def keyMatches (cid : Int) : Option Value → Bool
  | some (Value.int k) => cid == k
  | some (Value.num q) => (cid : Rat) == q
  | _ => false

/-- `db.query(ClientEntity).all()`: a pure read returning the store
unchanged. -/
def Store.query_clients_all (db : Store) : List ClientEntity × Store :=
  (db.clients, db)

/-- `db.query(ProductEntity).all()`: a pure read returning the store
unchanged. -/
def Store.query_products_all (db : Store) : List ProductEntity × Store :=
  (db.products, db)

/-- `db.query(ClientEntity).filter(ClientEntity.id == v).first()`: first
matching row, store unchanged. -/
def Store.query_client_first (db : Store) (v : Option Value) :
    Option ClientEntity × Store :=
  (db.clients.find? (fun c => keyMatches c.id v), db)

/-- `db.query(ProductEntity).filter(ProductEntity.id == v).first()`: first
matching row, store unchanged. -/
def Store.query_product_first (db : Store) (v : Option Value) :
    Option ProductEntity × Store :=
  (db.products.find? (fun p => keyMatches p.id v), db)

/-- Outcome of `pd.read_csv(file_path)`: the file is missing
(`FileNotFoundError`), some other read or parse error occurs, or the file
parses into an ordered list of record dicts. -/
inductive FileOutcome where
  | missing
  | parseError
  | ok (rows : List Row)
deriving Repr, DecidableEq

/-- `load_sales_from_csv` from `src/main.py`: returns the parsed rows, and
catches `FileNotFoundError` and every other `Exception` from the CSV read,
logging a warning and returning the empty list. -/
def load_sales_from_csv : FileOutcome → List Row
  | FileOutcome.ok rows => rows
  | FileOutcome.missing => []
  | FileOutcome.parseError => []

/-- `read_clients` endpoint (`GET /clients`): all client rows, paired with
the post-request store. -/
def read_clients (db : Store) : List ClientEntity × Store :=
  Store.query_clients_all db

/-- `read_products` endpoint (`GET /products`): all product rows, paired
with the post-request store. -/
def read_products (db : Store) : List ProductEntity × Store :=
  Store.query_products_all db

/-- `client_db.name if client_db else "N/A"` from `read_sales`. -/
def clientNameOr (c : Option ClientEntity) : String :=
  match c with
  | some c => c.name
  | Option.none => "N/A"

/-- `product_db.name if product_db else "N/A"` from `read_sales`. -/
def productNameOr (p : Option ProductEntity) : String :=
  match p with
  | some p => p.name
  | Option.none => "N/A"

/-- Construction `SaleOutput(id=row.get('id', 0), client_id=row.get('client_id'),
product_id=row.get('product_id'), sale_amount=row.get('sale_amount', 0.0),
client_name=cn, product_name=pn)`: pydantic validates every field against
its declared type; `Option.none` is the `ValidationError` raised when any
field fails (notably when `client_id` or `product_id` is absent — Python
`None` — or non-numeric). -/
def mkSaleOutput (row : Row) (cn pn : String) : Option SaleOutput :=
  match coerceInt (some (pyGetD row "id" (Value.int 0))),
        coerceInt (pyGet row "client_id"),
        coerceInt (pyGet row "product_id"),
        coerceFloat (some (pyGetD row "sale_amount" (Value.num 0))) with
  | some i, some cid, some pid, some amt =>
      some ⟨i, cid, pid, amt, cn, pn⟩
  | _, _, _, _ => Option.none

/-- A reference-data lookup issued by `read_sales` against the store,
recorded for the short-circuit property. -/
inductive Query where
  | clientFirst (v : Option Value)
  | productFirst (v : Option Value)
deriving Repr, DecidableEq

/-- The `for sale_record_csv in sales_data_from_csv:` loop of `read_sales`:
two point lookups per row, then the pydantic construction; a
`ValidationError` (`Option.none`) aborts the whole request. Returns the
result, the post-loop store, and the queries issued. -/
def read_sales_loop (db : Store) : List Row → Option (List SaleOutput) × Store × List Query
  | [] => (some [], db, [])
  | row :: rest =>
    let cres := Store.query_client_first db (pyGet row "client_id")
    let pres := Store.query_product_first cres.2 (pyGet row "product_id")
    let qs : List Query :=
      [Query.clientFirst (pyGet row "client_id"),
       Query.productFirst (pyGet row "product_id")]
    match mkSaleOutput row (clientNameOr cres.1) (productNameOr pres.1) with
    | Option.none => (Option.none, pres.2, qs)
    | some out =>
      let recRes := read_sales_loop pres.2 rest
      (Option.map (fun l => out :: l) recRes.1, recRes.2.1, qs ++ recRes.2.2)

/-- `read_sales` endpoint (`GET /sales`): load the CSV; on an empty load
return `[]` before any lookup; otherwise run the enrichment loop. The
result is `Option.none` when the request fails with a `ValidationError`,
and is paired with the post-request store and the queries issued. -/
def read_sales (db : Store) (f : FileOutcome) :
    Option (List SaleOutput) × Store × List Query :=
  let sales_data_from_csv := load_sales_from_csv f
  if sales_data_from_csv.isEmpty then (some [], db, [])
  else read_sales_loop db sales_data_from_csv

/-- `get_db` from `src/main.py`: the generator-based dependency yields a
fresh session to the handler and closes it in a `finally` block. The
handler may finish normally or raise (`Except.error` covers validation
errors and store failures); the boolean records that `db.close()` ran. -/
def get_db_scope {α : Type} (handler : Store → Except String α) (db : Store) :
    Except String α × Bool :=
  match handler db with
  | Except.ok a => (Except.ok a, true)
  | Except.error e => (Except.error e, true)

/-- Per-row enrichment as a pure function of the store: the two lookups of
the loop body followed by the pydantic construction. `read_sales_loop`
computes exactly `mapOption` of this (the queries leave the store
unchanged). -/
def enrichRow (db : Store) (row : Row) : Option SaleOutput :=
  mkSaleOutput row
    (clientNameOr (db.clients.find? (fun c => keyMatches c.id (pyGet row "client_id"))))
    (productNameOr (db.products.find? (fun p => keyMatches p.id (pyGet row "product_id"))))

/-- Sequence a fallible map over a list, failing if any element fails. -/
def mapOption {α β : Type} (f : α → Option β) : List α → Option (List β)
  | [] => some []
  | a :: rest =>
    match f a with
    | Option.none => Option.none
    | some b => Option.map (fun bs => b :: bs) (mapOption f rest)

/-- The field is present and holds an integer. -/
def isIntField (v : Option Value) : Bool :=
  match v with
  | some (Value.int _) => true
  | _ => false

/-- The field is present and holds a number (integer or float). -/
def isNumField (v : Option Value) : Bool :=
  match v with
  | some (Value.int _) => true
  | some (Value.num _) => true
  | _ => false

/-- A well-formed CSV data row under the schema
`id, client_id, product_id, sale_amount`: the three id fields hold
integers and the amount holds a number. -/
def wellFormedRow (row : Row) : Bool :=
  isIntField (pyGet row "id") && isIntField (pyGet row "client_id") &&
  isIntField (pyGet row "product_id") && isNumField (pyGet row "sale_amount")

/-! ### Helper lemmas shared by the claim theorems -/

theorem read_sales_loop_store (db : Store) (rows : List Row) :
    (read_sales_loop db rows).2.1 = db := by
  induction rows generalizing db with
  | nil => rfl
  | cons row rest ih =>
    simp only [read_sales_loop, Store.query_client_first, Store.query_product_first]
    cases mkSaleOutput row
        (clientNameOr (List.find? (fun c => keyMatches c.id (pyGet row "client_id")) db.clients))
        (productNameOr (List.find? (fun p => keyMatches p.id (pyGet row "product_id")) db.products)) with
    | none => rfl
    | some out => simpa using ih db

theorem read_sales_loop_fst (db : Store) (rows : List Row) :
    (read_sales_loop db rows).1 = mapOption (enrichRow db) rows := by
  induction rows generalizing db with
  | nil => rfl
  | cons row rest ih =>
    simp only [read_sales_loop, Store.query_client_first, Store.query_product_first,
      mapOption, enrichRow]
    cases mkSaleOutput row
        (clientNameOr (List.find? (fun c => keyMatches c.id (pyGet row "client_id")) db.clients))
        (productNameOr (List.find? (fun p => keyMatches p.id (pyGet row "product_id")) db.products)) with
    | none => rfl
    | some out => rw [ih db]

theorem read_sales_store (db : Store) (f : FileOutcome) :
    (read_sales db f).2.1 = db := by
  unfold read_sales
  by_cases h : (load_sales_from_csv f).isEmpty
  · simp [h]
  · simp [h, read_sales_loop_store]

theorem read_sales_ok_fst (db : Store) (rows : List Row) :
    (read_sales db (FileOutcome.ok rows)).1 = mapOption (enrichRow db) rows := by
  unfold read_sales
  cases rows with
  | nil => rfl
  | cons row rest => simpa [load_sales_from_csv] using read_sales_loop_fst db (row :: rest)

theorem mapOption_length {α β : Type} (f : α → Option β) :
    ∀ (l : List α) (l2 : List β), mapOption f l = some l2 → l2.length = l.length := by
  intro l
  induction l with
  | nil => intro l2 h; simp [mapOption] at h; simp [h.symm]
  | cons a rest ih =>
    intro l2 h
    simp only [mapOption] at h
    cases hfa : f a with
    | none => rw [hfa] at h; exact absurd h (by simp)
    | some b =>
      rw [hfa] at h
      cases hrec : mapOption f rest with
      | none => rw [hrec] at h; exact absurd h (by simp)
      | some bs =>
        rw [hrec] at h
        have hl : b :: bs = l2 := by simpa using h
        subst hl
        simp [ih bs hrec]

theorem mapOption_get {α β : Type} (f : α → Option β) :
    ∀ (l : List α) (l2 : List β), mapOption f l = some l2 →
      ∀ (i : Nat) (h1 : i < l.length) (h2 : i < l2.length),
        f (l.get ⟨i, h1⟩) = some (l2.get ⟨i, h2⟩) := by
  intro l
  induction l with
  | nil => intro l2 h i h1; exact absurd h1 (by simp)
  | cons a rest ih =>
    intro l2 h i h1 h2
    simp only [mapOption] at h
    cases hfa : f a with
    | none => rw [hfa] at h; exact absurd h (by simp)
    | some b =>
      rw [hfa] at h
      cases hrec : mapOption f rest with
      | none => rw [hrec] at h; exact absurd h (by simp)
      | some bs =>
        rw [hrec] at h
        have hl : b :: bs = l2 := by simpa using h
        subst hl
        cases i with
        | zero => simpa using hfa
        | succ j => exact ih bs hrec j (by simpa using h1) (by simpa using h2)

theorem mapOption_isSome {α β : Type} (f : α → Option β) :
    ∀ (l : List α), (∀ a ∈ l, (f a).isSome) → ∃ l2, mapOption f l = some l2 := by
  intro l
  induction l with
  | nil => intro _; exact ⟨[], rfl⟩
  | cons a rest ih =>
    intro h
    have ha : (f a).isSome := h a (by simp)
    obtain ⟨b, hb⟩ := Option.isSome_iff_exists.mp ha
    obtain ⟨bs, hbs⟩ := ih (fun x hx => h x (by simp [hx]))
    exact ⟨b :: bs, by simp [mapOption, hb, hbs]⟩

theorem mapOption_none_of_mem {α β : Type} (f : α → Option β) :
    ∀ (l : List α) (a : α), a ∈ l → f a = Option.none → mapOption f l = Option.none := by
  intro l
  induction l with
  | nil => intro a ha; exact absurd ha (by simp)
  | cons x rest ih =>
    intro a ha hfa
    simp only [mapOption]
    rcases List.mem_cons.mp ha with h | h
    · subst h; rw [hfa]
    · cases hfx : f x with
      | none => rfl
      | some b => rw [ih a h hfa]; rfl

theorem keyMatches_int (cid k : Int) :
    keyMatches cid (some (Value.int k)) = (cid == k) := rfl

theorem mkSaleOutput_names {row : Row} {cn pn : String} {out : SaleOutput}
    (h : mkSaleOutput row cn pn = some out) :
    out.client_name = cn ∧ out.product_name = pn := by
  unfold mkSaleOutput at h
  split at h
  · injection h with h
    subst h
    exact ⟨rfl, rfl⟩
  · exact Option.noConfusion h

theorem mkSaleOutput_none_of_key {row : Row} {cn pn : String}
    (hbad : coerceInt (pyGet row "client_id") = Option.none ∨
            coerceInt (pyGet row "product_id") = Option.none) :
    mkSaleOutput row cn pn = Option.none := by
  unfold mkSaleOutput
  rcases hbad with hb | hb
  · rw [hb]
    cases coerceInt (some (pyGetD row "id" (Value.int 0))) <;> rfl
  · rw [hb]
    cases coerceInt (some (pyGetD row "id" (Value.int 0))) <;>
      cases coerceInt (pyGet row "client_id") <;> rfl

theorem enrichRow_names {db : Store} {row : Row} {out : SaleOutput}
    (h : enrichRow db row = some out) :
    out.client_name =
      clientNameOr (db.clients.find? (fun c => keyMatches c.id (pyGet row "client_id"))) ∧
    out.product_name =
      productNameOr (db.products.find? (fun p => keyMatches p.id (pyGet row "product_id"))) := by
  unfold enrichRow at h
  exact mkSaleOutput_names h

theorem enrichRow_none_of_key (db : Store) {row : Row}
    (hbad : coerceInt (pyGet row "client_id") = Option.none ∨
            coerceInt (pyGet row "product_id") = Option.none) :
    enrichRow db row = Option.none := by
  unfold enrichRow
  exact mkSaleOutput_none_of_key hbad

theorem isIntField_spec {v : Option Value} (h : isIntField v = true) :
    ∃ n : Int, v = some (Value.int n) := by
  cases v with
  | none => exact absurd h (by simp [isIntField])
  | some w =>
    cases w with
    | int n => exact ⟨n, rfl⟩
    | num q => exact absurd h (by simp [isIntField])
    | str s => exact absurd h (by simp [isIntField])

theorem isNumField_spec {v : Option Value} (h : isNumField v = true) :
    (∃ n : Int, v = some (Value.int n)) ∨ (∃ q : Rat, v = some (Value.num q)) := by
  cases v with
  | none => exact absurd h (by simp [isNumField])
  | some w =>
    cases w with
    | int n => exact Or.inl ⟨n, rfl⟩
    | num q => exact Or.inr ⟨q, rfl⟩
    | str s => exact absurd h (by simp [isNumField])

theorem enrichRow_isSome_of_wellFormed (db : Store) (row : Row)
    (h : wellFormedRow row = true) : (enrichRow db row).isSome := by
  unfold wellFormedRow at h
  simp only [Bool.and_eq_true] at h
  obtain ⟨⟨⟨hid, hcid⟩, hpid⟩, hamt⟩ := h
  obtain ⟨n, hn⟩ := isIntField_spec hid
  obtain ⟨nc, hnc⟩ := isIntField_spec hcid
  obtain ⟨np, hnp⟩ := isIntField_spec hpid
  unfold enrichRow mkSaleOutput
  rcases isNumField_spec hamt with ⟨na, hna⟩ | ⟨qa, hqa⟩
  · simp [pyGetD, hn, hnc, hnp, hna, coerceInt, coerceFloat]
  · simp [pyGetD, hn, hnc, hnp, hqa, coerceInt, coerceFloat]

theorem find?_keyMatches_eq_some {α : Type} (idOf : α → Int) (l : List α)
    (hnd : (l.map idOf).Nodup) (c : α) (hc : c ∈ l) (k : Int) (hk : idOf c = k) :
    l.find? (fun x => keyMatches (idOf x) (some (Value.int k))) = some c := by
  induction l with
  | nil => exact absurd hc (by simp)
  | cons a rest ih =>
    simp only [List.map_cons, List.nodup_cons] at hnd
    rcases List.mem_cons.mp hc with rfl | hmem
    · exact List.find?_cons_of_pos _ (by simp [keyMatches_int, hk])
    · have hak : (idOf a == k) = false := by
        rcases Bool.eq_false_or_eq_true (idOf a == k) with ht | hf
        · exfalso
          apply hnd.1
          rw [eq_of_beq ht, ← hk]
          exact List.mem_map_of_mem idOf hmem
        · exact hf
      rw [List.find?_cons_of_neg _ (by simp [keyMatches_int, hak])]
      exact ih hnd.2 hmem

theorem find?_keyMatches_eq_none {α : Type} (idOf : α → Int) (l : List α)
    (k : Int) (h : ∀ x ∈ l, idOf x ≠ k) :
    l.find? (fun x => keyMatches (idOf x) (some (Value.int k))) = Option.none := by
  apply List.find?_eq_none.mpr
  intro x hx
  simp only [keyMatches_int]
  simpa using h x hx

/-! ### Claim theorems -/

/-- Claim C4: the flat-file loader never surfaces an error to its caller —
for every outcome of the read that is not a successful parse (missing file,
malformed row, encoding error), `load_sales_from_csv` returns the empty
sequence, so the caller observes only "no sales". -/
theorem C4_loader_degrades_to_empty (f : FileOutcome)
    (h : ∀ rows : List Row, f ≠ FileOutcome.ok rows) :
    load_sales_from_csv f = [] := by
  cases f with
  | missing => rfl
  | parseError => rfl
  | ok rows => exact absurd rfl (h rows)

theorem C4_witness : load_sales_from_csv FileOutcome.missing = [] :=
  C4_loader_degrades_to_empty FileOutcome.missing
    (fun _ h => FileOutcome.noConfusion h)

/-- Claim C5: if the loader returns an empty sequence of raw sales,
`read_sales` returns the empty sequence, leaves the store untouched, and
issues no client or product query (it short-circuits before any lookup). -/
theorem C5_empty_load_short_circuits (db : Store) (f : FileOutcome)
    (h : load_sales_from_csv f = []) :
    read_sales db f = (some [], db, []) := by
  simp [read_sales, h]

theorem C5_witness :
    read_sales ⟨[⟨1, "Acme"⟩], [⟨9, "Widget", 3⟩]⟩ FileOutcome.missing =
      (some [], ⟨[⟨1, "Acme"⟩], [⟨9, "Widget", 3⟩]⟩, []) :=
  C5_empty_load_short_circuits ⟨[⟨1, "Acme"⟩], [⟨9, "Widget", 3⟩]⟩
    FileOutcome.missing rfl

/-- Claim C6: with the store holding exactly Client(1,"Acme") and
Product(9,"Widget") and the flat file holding the single row
id 1, client_id 1, product_id 9, sale_amount 12.5, the `/sales` endpoint
returns exactly one enriched sale carrying those fields together with
client_name "Acme" and product_name "Widget". -/
theorem C6_concrete_scenario :
    (read_sales ⟨[⟨1, "Acme"⟩], [⟨9, "Widget", 3⟩]⟩
      (FileOutcome.ok [[("id", Value.int 1), ("client_id", Value.int 1),
        ("product_id", Value.int 9), ("sale_amount", Value.num (25 / 2))]])).1 =
    some [⟨1, 1, 9, 25 / 2, "Acme", "Widget"⟩] := rfl

/-- Claim C7: the `get_db` dependency closes the database session on every
exit path of the handler it serves — both when the handler returns
normally and when it raises (validation error or store failure). -/
theorem C7_session_always_closed {α : Type} (handler : Store → Except String α)
    (db : Store) : (get_db_scope handler db).2 = true := by
  unfold get_db_scope
  cases handler db <;> rfl

/-- Claim C8: none of the three endpoints mutates, creates, or deletes any
row in the relational store — the store after any request equals the store
before it. -/
theorem C8_endpoints_preserve_store (db : Store) (f : FileOutcome) :
    (read_clients db).2 = db ∧ (read_products db).2 = db ∧
    (read_sales db f).2.1 = db :=
  ⟨rfl, rfl, read_sales_store db f⟩

/-- Claim C9: each endpoint is deterministic and idempotent — a second call
against the store left by a first call, with the same flat-file contents,
returns the same result as the first call, and neither call changes the
store. -/
theorem C9_endpoints_deterministic_idempotent (db : Store) (f : FileOutcome) :
    (read_clients (read_clients db).2).1 = (read_clients db).1 ∧
    (read_clients (read_clients db).2).2 = db ∧
    (read_products (read_products db).2).1 = (read_products db).1 ∧
    (read_products (read_products db).2).2 = db ∧
    (read_sales (read_sales db f).2.1 f).1 = (read_sales db f).1 ∧
    (read_sales (read_sales db f).2.1 f).2.1 = db := by
  refine ⟨rfl, rfl, rfl, rfl, ?_, ?_⟩
  · rw [read_sales_store db f]
  · rw [read_sales_store db f]
    exact read_sales_store db f

/-- Claim C2: for a well-formed flat file, `read_sales` returns exactly one
enriched sale per raw row, in the file's row order — the i-th output is the
enrichment of the i-th row — and in particular the result's length equals
the number of data rows; no deduplication, grouping, sorting, or numeric
aggregation takes place. -/
theorem C2_one_output_per_row_in_order (db : Store) (rows : List Row)
    (hwf : ∀ row ∈ rows, wellFormedRow row = true) :
    ∃ outs : List SaleOutput,
      (read_sales db (FileOutcome.ok rows)).1 = some outs ∧
      outs.length = rows.length ∧
      ∀ (i : Nat) (h1 : i < rows.length) (h2 : i < outs.length),
        enrichRow db (rows.get ⟨i, h1⟩) = some (outs.get ⟨i, h2⟩) := by
  have hsome : ∀ row ∈ rows, (enrichRow db row).isSome :=
    fun row hr => enrichRow_isSome_of_wellFormed db row (hwf row hr)
  obtain ⟨outs, houts⟩ := mapOption_isSome (enrichRow db) rows hsome
  refine ⟨outs, ?_, mapOption_length _ rows outs houts,
    mapOption_get _ rows outs houts⟩
  rw [read_sales_ok_fst db rows, houts]

theorem C2_witness :
    ∃ outs : List SaleOutput,
      (read_sales ⟨[⟨1, "Acme"⟩], [⟨9, "Widget", 3⟩]⟩
        (FileOutcome.ok
          [[("id", Value.int 1), ("client_id", Value.int 1),
            ("product_id", Value.int 9), ("sale_amount", Value.int 5)],
           [("id", Value.int 2), ("client_id", Value.int 7),
            ("product_id", Value.int 9), ("sale_amount", Value.int 4)]])).1 =
        some outs ∧
      outs.length = 2 := by
  obtain ⟨outs, h1, h2, h3⟩ := C2_one_output_per_row_in_order
    ⟨[⟨1, "Acme"⟩], [⟨9, "Widget", 3⟩]⟩
    [[("id", Value.int 1), ("client_id", Value.int 1),
      ("product_id", Value.int 9), ("sale_amount", Value.int 5)],
     [("id", Value.int 2), ("client_id", Value.int 7),
      ("product_id", Value.int 9), ("sale_amount", Value.int 4)]]
    (by decide)
  exact ⟨outs, h1, h2⟩

/-- Claim C3 (as stated) is false on the code: a raw sale row whose
`client_id` field is absent is not emitted with a substituted key — the
raw `None` is passed into the pydantic constructor, whose `int` validation
rejects it, and the request fails. Concretely, for the one-row file whose
row has no `client_id` key, `read_sales` produces no result at all
(`Option.none`, a `ValidationError`), not a sequence with one enriched
sale. -/
theorem C3_counterexample :
    pyGet [("id", Value.int 1), ("product_id", Value.int 9),
      ("sale_amount", Value.int 5)] "client_id" = Option.none ∧
    (read_sales ⟨[⟨1, "Acme"⟩], [⟨9, "Widget", 3⟩]⟩
      (FileOutcome.ok [[("id", Value.int 1), ("product_id", Value.int 9),
        ("sale_amount", Value.int 5)]])).1 = Option.none :=
  ⟨rfl, rfl⟩

/-- Claim C3 (amended): when any raw sale row has an absent or non-numeric
`client_id` or `product_id` (the pydantic `int` coercion of the raw value
fails), `read_sales` does not emit an enriched sale for that row with a
substituted key — the whole request fails with a validation error
(`Option.none`). The lookups themselves treat such a key as matching no
entity, but the row never reaches the response. -/
theorem C3_missing_key_fails_request (db : Store) (rows : List Row)
    (row : Row) (hmem : row ∈ rows)
    (hbad : coerceInt (pyGet row "client_id") = Option.none ∨
            coerceInt (pyGet row "product_id") = Option.none) :
    (read_sales db (FileOutcome.ok rows)).1 = Option.none := by
  rw [read_sales_ok_fst]
  exact mapOption_none_of_mem (enrichRow db) rows row hmem
    (enrichRow_none_of_key db hbad)

theorem C3_witness :
    (read_sales ⟨[⟨1, "Acme"⟩], [⟨9, "Widget", 3⟩]⟩
      (FileOutcome.ok [[("id", Value.int 2), ("client_id", Value.int 1),
        ("sale_amount", Value.int 5)]])).1 = Option.none :=
  C3_missing_key_fails_request ⟨[⟨1, "Acme"⟩], [⟨9, "Widget", 3⟩]⟩
    [[("id", Value.int 2), ("client_id", Value.int 1),
      ("sale_amount", Value.int 5)]]
    [("id", Value.int 2), ("client_id", Value.int 1),
      ("sale_amount", Value.int 5)]
    (by decide) (Or.inr (by decide))

/-- Claim C10: every raw sale row missing the non-key `id` field is
emitted with id 0, and — independently — every row missing the non-key
`sale_amount` field is emitted with sale_amount 0.0: each missing non-key
field is silently defaulted rather than dropping the row or failing the
request. The hypotheses say only that every field of the constructed
record validates, which is what emission requires (a key field that fails
validation aborts the request — C3); a missing `id` or `sale_amount`
always validates, via its default. -/
theorem C10_missing_nonkey_fields_default (db : Store) (row : Row)
    (hid : (coerceInt (some (pyGetD row "id" (Value.int 0)))).isSome)
    (hcid : (coerceInt (pyGet row "client_id")).isSome)
    (hpid : (coerceInt (pyGet row "product_id")).isSome)
    (hamt : (coerceFloat (some (pyGetD row "sale_amount" (Value.num 0)))).isSome) :
    ∃ out : SaleOutput, enrichRow db row = some out ∧
      (pyGet row "id" = Option.none → out.id = 0) ∧
      (pyGet row "sale_amount" = Option.none → out.sale_amount = 0) := by
  obtain ⟨i, hi⟩ := Option.isSome_iff_exists.mp hid
  obtain ⟨cid, hc⟩ := Option.isSome_iff_exists.mp hcid
  obtain ⟨pid, hp⟩ := Option.isSome_iff_exists.mp hpid
  obtain ⟨amt, ha⟩ := Option.isSome_iff_exists.mp hamt
  unfold enrichRow mkSaleOutput
  rw [hi, hc, hp, ha]
  refine ⟨_, rfl, ?_, ?_⟩
  · intro hnone
    unfold pyGetD at hi
    rw [hnone] at hi
    simp only [Option.getD, coerceInt, Option.some.injEq] at hi
    exact hi.symm
  · intro hnone
    unfold pyGetD at ha
    rw [hnone] at ha
    simp only [Option.getD, coerceFloat, Option.some.injEq] at ha
    exact ha.symm

theorem C10_witness :
    ∃ out : SaleOutput,
      enrichRow ⟨[⟨1, "Acme"⟩], [⟨9, "Widget", 3⟩]⟩
        [("client_id", Value.int 1), ("product_id", Value.int 9),
         ("sale_amount", Value.int 5)] = some out ∧
      (pyGet [("client_id", Value.int 1), ("product_id", Value.int 9),
         ("sale_amount", Value.int 5)] "id" = Option.none → out.id = 0) ∧
      (pyGet [("client_id", Value.int 1), ("product_id", Value.int 9),
         ("sale_amount", Value.int 5)] "sale_amount" = Option.none →
        out.sale_amount = 0) :=
  C10_missing_nonkey_fields_default ⟨[⟨1, "Acme"⟩], [⟨9, "Widget", 3⟩]⟩
    [("client_id", Value.int 1), ("product_id", Value.int 9),
     ("sale_amount", Value.int 5)]
    (by decide) (by decide) (by decide) (by decide)

/-- Claim C1 (as stated) is false on the code: the "iff" direction from
client_name = "N/A" to "no matching client" fails when a stored client is
literally named "N/A". With the store holding exactly Client(1, "N/A") and
a file row whose client_id is 1, the emitted enriched sale has
client_name = "N/A" even though a client with id 1 exists. -/
theorem C1_counterexample :
    pyGet [("id", Value.int 1), ("client_id", Value.int 1),
      ("product_id", Value.int 9), ("sale_amount", Value.int 5)]
      "client_id" = some (Value.int 1) ∧
    (read_sales ⟨[⟨1, "N/A"⟩], []⟩
      (FileOutcome.ok [[("id", Value.int 1), ("client_id", Value.int 1),
        ("product_id", Value.int 9), ("sale_amount", Value.int 5)]])).1 =
      some [⟨1, 1, 9, 5, "N/A", "N/A"⟩] ∧
    ¬ ((⟨1, 1, 9, 5, "N/A", "N/A"⟩ : SaleOutput).client_name = "N/A" ↔
        ∀ c ∈ ([⟨1, "N/A"⟩] : List ClientEntity), c.id ≠ (1 : Int)) := by
  refine ⟨rfl, rfl, ?_⟩
  decide

/-- Claim C1 (amended): for every enriched sale emitted by `read_sales`
(over any store, ids being unique as the store's primary key guarantees),
client_name equals the name of the store's client whose id equals the
row's client_id when one exists, and equals "N/A" whenever no such client
exists — both unconditionally; the biconditional "client_name is N/A iff
no client with that id exists" holds under the additional proviso that no
stored client is literally named "N/A". The same holds for product_name
over the product store. -/
theorem C1_name_resolution (db : Store) (rows : List Row)
    (outs : List SaleOutput)
    (hndc : (db.clients.map ClientEntity.id).Nodup)
    (hndp : (db.products.map ProductEntity.id).Nodup)
    (hrun : (read_sales db (FileOutcome.ok rows)).1 = some outs)
    (i : Nat) (h1 : i < rows.length) (h2 : i < outs.length) :
    (∀ k : Int, pyGet (rows.get ⟨i, h1⟩) "client_id" = some (Value.int k) →
      (∀ c ∈ db.clients, c.id = k →
        (outs.get ⟨i, h2⟩).client_name = c.name) ∧
      ((∀ c ∈ db.clients, c.id ≠ k) →
        (outs.get ⟨i, h2⟩).client_name = "N/A") ∧
      ((∀ c ∈ db.clients, c.name ≠ "N/A") →
        ((outs.get ⟨i, h2⟩).client_name = "N/A" ↔
          ∀ c ∈ db.clients, c.id ≠ k))) ∧
    (∀ k : Int, pyGet (rows.get ⟨i, h1⟩) "product_id" = some (Value.int k) →
      (∀ p ∈ db.products, p.id = k →
        (outs.get ⟨i, h2⟩).product_name = p.name) ∧
      ((∀ p ∈ db.products, p.id ≠ k) →
        (outs.get ⟨i, h2⟩).product_name = "N/A") ∧
      ((∀ p ∈ db.products, p.name ≠ "N/A") →
        ((outs.get ⟨i, h2⟩).product_name = "N/A" ↔
          ∀ p ∈ db.products, p.id ≠ k))) := by
  rw [read_sales_ok_fst] at hrun
  have hrow := mapOption_get (enrichRow db) rows outs hrun i h1 h2
  have hnames := enrichRow_names hrow
  constructor
  · intro k hk
    rw [hnames.1]
    simp only [hk]
    have hres : ∀ c ∈ db.clients, c.id = k →
        clientNameOr (db.clients.find?
          (fun c => keyMatches c.id (some (Value.int k)))) = c.name := by
      intro c hc hck
      rw [find?_keyMatches_eq_some ClientEntity.id db.clients hndc c hc k hck]
      rfl
    have hnone : (∀ c ∈ db.clients, c.id ≠ k) →
        clientNameOr (db.clients.find?
          (fun c => keyMatches c.id (some (Value.int k)))) = "N/A" := by
      intro hall
      rw [find?_keyMatches_eq_none ClientEntity.id db.clients k hall]
      rfl
    refine ⟨hres, hnone, ?_⟩
    intro hnac
    constructor
    · intro hna c hc hck
      have := hres c hc hck
      rw [this] at hna
      exact hnac c hc hna
    · exact hnone
  · intro k hk
    rw [hnames.2]
    simp only [hk]
    have hres : ∀ p ∈ db.products, p.id = k →
        productNameOr (db.products.find?
          (fun p => keyMatches p.id (some (Value.int k)))) = p.name := by
      intro p hp hpk
      rw [find?_keyMatches_eq_some ProductEntity.id db.products hndp p hp k hpk]
      rfl
    have hnone : (∀ p ∈ db.products, p.id ≠ k) →
        productNameOr (db.products.find?
          (fun p => keyMatches p.id (some (Value.int k)))) = "N/A" := by
      intro hall
      rw [find?_keyMatches_eq_none ProductEntity.id db.products k hall]
      rfl
    refine ⟨hres, hnone, ?_⟩
    intro hnap
    constructor
    · intro hna p hp hpk
      have := hres p hp hpk
      rw [this] at hna
      exact hnap p hp hna
    · exact hnone

theorem C1_witness :
    (([⟨1, 1, 9, 5, "N/A", "N/A"⟩] : List SaleOutput).get
      ⟨0, Nat.one_pos⟩).client_name = "N/A" := by
  have h := C1_name_resolution ⟨[⟨1, "N/A"⟩], []⟩
    [[("id", Value.int 1), ("client_id", Value.int 1),
      ("product_id", Value.int 9), ("sale_amount", Value.int 5)]]
    [⟨1, 1, 9, 5, "N/A", "N/A"⟩]
    (by decide) (by decide) (by decide)
    0 (by decide) (by decide)
  exact (h.1 1 (by decide)).1 ⟨1, "N/A"⟩ (by decide) rfl
